import Mathlib

/-
Shallow embedding of RAGScope's self-reflective RAG control loop
(src/Flows/SelfFlow.py, src/SelfState.py) and of the adaptive router with
its web-search fallback path (src/AdaptiveFlow.py, src/RotueQuery.py).

External services (the LLM graders, the question rewriter, the RAG chain
and the vector retriever) are modelled as oracle functions; a call that can
raise in Python returns `Except Unit α` here (`Except.error ()` standing
for a raised exception). Each node function additionally returns the list
of external calls it performed, so that "no grading call is made" style
properties are observable.
-/

/-- A retrieved passage (a langchain Document); only `page_content` is used
by the flows. -/
structure Doc where
  page_content : String
deriving DecidableEq, Repr

/-- The loop state `SelfState` (src/SelfState.py): a TypedDict with
`retry_count`, `question`, `generation` and `documents`. -/
structure SelfState where
  retry_count : Nat
  question : String
  generation : String
  documents : List Doc
deriving DecidableEq, Repr

/-- Which rewrite prompt `SelfFlow.transform_query` builds: the aggressive
(much simpler and broader) template when the incremented retry count is at
least 2, the standard improved-question template otherwise. -/
inductive RewriteMode where
  | standard
  | aggressive
deriving DecidableEq, Repr

/-- One external call performed by a node of the self-reflective loop. -/
inductive Call where
  | retrievalGrade (question : String) (document : Doc)
  | hallucinationGrade (documents : List Doc) (generation : String)
  | answerGrade (question : String) (generation : String)
  | rewrite (mode : RewriteMode) (question : String)
  | ragGenerate (documents : List Doc) (question : String)
deriving DecidableEq, Repr

/-- The external collaborators of SelfFlow: the three structured graders
(returning a `binary_score` string), the question rewriter chain, the RAG
generation chain and the Pinecone retriever. A fallible call returns
`Except Unit String`. -/
structure Oracles where
  retrieval_grader : String → String → Except Unit String
  hallucination_grader : List Doc → String → Except Unit String
  answer_grader : String → String → Except Unit String
  question_rewriter : RewriteMode → String → Except Unit String
  rag_chain : List Doc → String → Except Unit String
  compare_embeddings : String → List Doc

namespace SelfFlow

/-- `SelfFlow.retrieve`: fetches documents for the current question and
returns the state with `documents` replaced, `question` and `retry_count`
unchanged. -/
def retrieve (o : Oracles) (state : SelfState) : SelfState :=
  { state with documents := o.compare_embeddings state.question }

/-- The per-document scoring loop of `SelfFlow.grade_documents`: each
document is graded in order; a document graded "yes" is kept, a document
graded otherwise is dropped, and a document whose grading call raises is
kept (and later documents are still graded). Also returns the grading
calls made, in order. -/
def scoreDocs (o : Oracles) (question : String) : List Doc → List Doc × List Call
  | [] => ([], [])
  | d :: rest =>
    let tail := scoreDocs o question rest
    match o.retrieval_grader question d.page_content with
    | Except.ok grade =>
        (if grade = "yes" then d :: tail.1 else tail.1,
         Call.retrievalGrade question d :: tail.2)
    | Except.error _ =>
        (d :: tail.1, Call.retrievalGrade question d :: tail.2)

/-- `SelfFlow.grade_documents`: if `retry_count >= 2`, keep all documents
and make no grading call; otherwise keep exactly the documents the scoring
loop keeps. -/
def grade_documents (o : Oracles) (state : SelfState) : SelfState × List Call :=
  if 2 ≤ state.retry_count then
    (state, [])
  else
    let scored := scoreDocs o state.question state.documents
    ({ state with documents := scored.1 }, scored.2)

/-- The fallback generation `SelfFlow.generate` substitutes when no
documents are available. -/
def fallback_no_docs_generation (question : String) : String :=
  "I don't have specific information in my knowledge base about: '" ++ question ++
    "'. This question may require information that's not available in my current documents."

/-- The fallback generation `SelfFlow.generate` substitutes when the RAG
chain raises. -/
def generation_error_fallback (question : String) : String :=
  "I encountered an error while generating a response for: '" ++ question ++ "'"

/-- `SelfFlow.generate`: with no documents, substitute the fallback
response without calling the RAG chain; otherwise invoke the RAG chain,
substituting the error fallback if it raises. -/
def generate (o : Oracles) (state : SelfState) : SelfState × List Call :=
  if state.documents = [] then
    ({ state with generation := fallback_no_docs_generation state.question }, [])
  else
    match o.rag_chain state.documents state.question with
    | Except.ok g =>
        ({ state with generation := g },
         [Call.ragGenerate state.documents state.question])
    | Except.error _ =>
        ({ state with generation := generation_error_fallback state.question },
         [Call.ragGenerate state.documents state.question])

/-- Which rewrite prompt `SelfFlow.transform_query` selects, as a function
of the already-incremented retry count. -/
def rewriteMode (retry_count : Nat) : RewriteMode :=
  if 2 ≤ retry_count then RewriteMode.aggressive else RewriteMode.standard

/-- `SelfFlow.transform_query`: increments `retry_count`, picks the rewrite
prompt from the incremented count, and replaces the question with the
rewriter's output, keeping the original question if the rewriter raises. -/
def transform_query (o : Oracles) (state : SelfState) : SelfState × List Call :=
  let retry_count := state.retry_count + 1
  let mode := rewriteMode retry_count
  let better_question :=
    match o.question_rewriter mode state.question with
    | Except.ok q => q
    | Except.error _ => state.question
  ({ state with question := better_question, retry_count := retry_count },
   [Call.rewrite mode state.question])

/-- The decision edge `SelfFlow.decide_to_generate`. -/
def decide_to_generate (state : SelfState) : String :=
  if state.documents = [] then
    if 3 ≤ state.retry_count then "generate" else "transform_query"
  else
    "generate"

/-- The decision edge `SelfFlow.grade_generation_v_documents_and_question`:
short-circuits to "useful" when `retry_count >= 2` or no documents;
otherwise grades hallucination and, when grounded, answer relevance, and
accepts ("useful") if either grading call raises. -/
def grade_generation_v_documents_and_question (o : Oracles) (state : SelfState) :
    String × List Call :=
  if 2 ≤ state.retry_count ∨ state.documents = [] then
    ("useful", [])
  else
    match o.hallucination_grader state.documents state.generation with
    | Except.error _ =>
        ("useful", [Call.hallucinationGrade state.documents state.generation])
    | Except.ok grade =>
        if grade = "yes" then
          match o.answer_grader state.question state.generation with
          | Except.error _ =>
              ("useful",
               [Call.hallucinationGrade state.documents state.generation,
                Call.answerGrade state.question state.generation])
          | Except.ok grade2 =>
              (if grade2 = "yes" then "useful" else "not useful",
               [Call.hallucinationGrade state.documents state.generation,
                Call.answerGrade state.question state.generation])
        else
          ("not supported", [Call.hallucinationGrade state.documents state.generation])

/-- The unconditional edges of `SelfFlow.generate_graph`, as
(source node, target node) pairs ("START" standing for the START
constant). -/
def selfFlowEdges : List (String × String) :=
  [("START", "retrieve"), ("retrieve", "grade_documents"),
   ("transform_query", "retrieve")]

/-- The mapping of `decide_to_generate`'s transitions to nodes in
`SelfFlow.generate_graph`. -/
def decideToGenerateMap : List (String × String) :=
  [("transform_query", "transform_query"), ("generate", "generate")]

/-- The mapping of `grade_generation_v_documents_and_question`'s
transitions to nodes in `SelfFlow.generate_graph` ("END" standing for the
END constant). -/
def checkGenerationMap : List (String × String) :=
  [("not supported", "generate"), ("useful", "END"),
   ("not useful", "transform_query")]

end SelfFlow

namespace AdaptiveFlow

/-- The `datasource` field of `RouteQuery` (src/RotueQuery.py): a pydantic
`Literal` admitting exactly the strings "self-flow" and "web_search". -/
inductive Datasource where
  | selfFlowSource
  | webSearchSource
deriving DecidableEq, Repr

/-- The string value each `Datasource` alternative stands for. -/
def datasourceValue : Datasource → String
  | Datasource.selfFlowSource => "self-flow"
  | Datasource.webSearchSource => "web_search"

/-- The branch logic of `AdaptiveFlow.route_query` on the structured
router's output: returns "web_search" when `next_step.datasource` equals
"web-search", else "call_self_rag". -/
def route_query (datasource : Datasource) : String :=
  if datasourceValue datasource = "web-search" then "web_search" else "call_self_rag"

/-- The mapping of `route_query`'s transitions to nodes in
`AdaptiveFlow.generate_graph`. -/
def routeMap : List (String × String) :=
  [("web_search", "transform_query"), ("call_self_rag", "call_self_rag")]

/-- `AdaptiveFlow.transform_query`: rewrites the question for web search.
There is no fault handler around the rewriter invocation, so a raised
fault propagates out of the stage. -/
def transform_query (rewriter : String → Except Unit String)
    (documents : List Doc) (question : String) :
    Except Unit (List Doc × String) :=
  match rewriter question with
  | Except.ok better_question => Except.ok (documents, better_question)
  | Except.error e => Except.error e

/-- `AdaptiveFlow.search_web`: joins the web results' contents into one
pseudo-passage Document; if the search tool raises, substitutes a Document
with empty content. -/
def search_web (web_search_tool : String → Except Unit (List String))
    (question : String) : Doc × String :=
  match web_search_tool question with
  | Except.ok docs => (⟨String.intercalate "\n" docs⟩, question)
  | Except.error _ => (⟨""⟩, question)

/-- The fallback generation `AdaptiveFlow.generate_answer` substitutes when
the RAG chain raises. -/
def web_generation_fallback (question : String) : String :=
  "I couldn't generate a proper answer for: " ++ question

/-- `AdaptiveFlow.generate_answer`: generates from the web pseudo-passage;
if the RAG chain raises, substitutes the fallback answer. -/
def generate_answer (rag_chain : Doc → String → Except Unit String)
    (documents : Doc) (question : String) : Doc × String × String :=
  match rag_chain documents question with
  | Except.ok generation => (documents, question, generation)
  | Except.error _ => (documents, question, web_generation_fallback question)

end AdaptiveFlow

/-- Oracles every call of which returns the given constant results:
`r` for relevance grading, `h` for hallucination grading, `a` for answer
grading, `rw` for query rewriting and `g` for RAG generation. Used to
instantiate theorems at concrete inputs. -/
def constOracles (r h a rw g : Except Unit String) : Oracles :=
  { retrieval_grader := fun _ _ => r
    hallucination_grader := fun _ _ => h
    answer_grader := fun _ _ => a
    question_rewriter := fun _ _ => rw
    rag_chain := fun _ _ => g
    compare_embeddings := fun _ => [] }

/-- Oracles whose every fallible call raises. -/
def failingOracles : Oracles :=
  constOracles (Except.error ()) (Except.error ()) (Except.error ())
    (Except.error ()) (Except.error ())

/-- Whether the scoring loop of `SelfFlow.grade_documents` keeps a document:
kept when graded "yes" and also kept when the grading call raises. -/
def keepDoc (o : Oracles) (question : String) (d : Doc) : Bool :=
  match o.retrieval_grader question d.page_content with
  | Except.ok grade => decide (grade = "yes")
  | Except.error _ => true

/-- Whether the relevance grader labels a document "yes" (a raised grading
call does not count as a "yes" label). -/
def gradedYes (o : Oracles) (question : String) (d : Doc) : Bool :=
  match o.retrieval_grader question d.page_content with
  | Except.ok grade => decide (grade = "yes")
  | Except.error _ => false

/-! ## Theorems -/

/-- The documents the scoring loop returns are exactly the input documents
satisfying `keepDoc`. -/
theorem scoreDocs_documents (o : Oracles) (q : String) (ds : List Doc) :
    (SelfFlow.scoreDocs o q ds).1 = ds.filter (keepDoc o q) := by
  induction ds with
  | nil => rfl
  | cons d rest ih =>
    unfold SelfFlow.scoreDocs
    cases h : o.retrieval_grader q d.page_content with
    | ok grade =>
      by_cases hg : grade = "yes" <;>
        simp [List.filter_cons, keepDoc, h, hg, ih]
    | error e =>
      simp [List.filter_cons, keepDoc, h, ih]

/-- C1: at the DecideToGenerate edge, an empty filtered document list with
retry_count < 3 yields the transform_query transition, an empty list with
retry_count ≥ 3 forces the generate transition, and a non-empty list yields
the generate transition; both transitions are wired in the graph's
conditional-edge map. -/
theorem C1_decide_to_generate (s : SelfState) :
    (s.documents = [] → s.retry_count < 3 →
      SelfFlow.decide_to_generate s = "transform_query") ∧
    (s.documents = [] → 3 ≤ s.retry_count →
      SelfFlow.decide_to_generate s = "generate") ∧
    (s.documents ≠ [] → SelfFlow.decide_to_generate s = "generate") ∧
    ("transform_query", "transform_query") ∈ SelfFlow.decideToGenerateMap ∧
    ("generate", "generate") ∈ SelfFlow.decideToGenerateMap := by
  unfold SelfFlow.decide_to_generate
  refine ⟨?_, ?_, ?_, by decide, by decide⟩
  · intro h1 h2
    rw [if_pos h1, if_neg (by omega)]
  · intro h1 h2
    rw [if_pos h1, if_pos h2]
  · intro h1
    rw [if_neg h1]

/-- C1 witness: the three branches at concrete states. -/
theorem C1_decide_to_generate_witness :
    SelfFlow.decide_to_generate ⟨0, "q", "", []⟩ = "transform_query" ∧
    SelfFlow.decide_to_generate ⟨3, "q", "", []⟩ = "generate" ∧
    SelfFlow.decide_to_generate ⟨0, "q", "", [⟨"d"⟩]⟩ = "generate" :=
  ⟨(C1_decide_to_generate _).1 rfl (by decide),
   (C1_decide_to_generate _).2.1 rfl (by decide),
   (C1_decide_to_generate _).2.2.1 (by decide)⟩

/-- C5: retrieve, grade_documents and generate each return a state with the
input's retry_count, and transform_query returns the input's retry_count
plus one. -/
theorem C5_retry_count_monotone (o : Oracles) (s : SelfState) :
    (SelfFlow.retrieve o s).retry_count = s.retry_count ∧
    ((SelfFlow.grade_documents o s).1).retry_count = s.retry_count ∧
    ((SelfFlow.generate o s).1).retry_count = s.retry_count ∧
    ((SelfFlow.transform_query o s).1).retry_count = s.retry_count + 1 := by
  refine ⟨rfl, ?_, ?_, rfl⟩
  · unfold SelfFlow.grade_documents
    split <;> rfl
  · unfold SelfFlow.generate
    split
    · rfl
    · cases h : o.rag_chain s.documents s.question <;> simp [h]

/-- C10: grade_documents returns a document list that is an order-preserving
subsequence (sublist) of the input documents, with question and retry_count
unchanged. -/
theorem C10_grade_documents_frame (o : Oracles) (s : SelfState) :
    List.Sublist ((SelfFlow.grade_documents o s).1.documents) s.documents ∧
    (SelfFlow.grade_documents o s).1.question = s.question ∧
    (SelfFlow.grade_documents o s).1.retry_count = s.retry_count := by
  unfold SelfFlow.grade_documents
  split
  · exact ⟨List.Sublist.refl _, rfl, rfl⟩
  · exact ⟨by simp [scoreDocs_documents, List.filter_sublist s.documents], rfl, rfl⟩

/-- C3: with retry_count ≥ 2, grade_documents returns the state unchanged
and makes no grading call; with retry_count < 2 and every grading call
succeeding, it returns exactly the documents the relevance grader labels
"yes". -/
theorem C3_grade_documents_leniency (o : Oracles) (s : SelfState) :
    (2 ≤ s.retry_count → SelfFlow.grade_documents o s = (s, [])) ∧
    (s.retry_count < 2 →
      (∀ d ∈ s.documents,
        ∃ g, o.retrieval_grader s.question d.page_content = Except.ok g) →
      (SelfFlow.grade_documents o s).1.documents =
        s.documents.filter (gradedYes o s.question)) := by
  constructor
  · intro h
    unfold SelfFlow.grade_documents
    rw [if_pos h]
  · intro h hok
    unfold SelfFlow.grade_documents
    rw [if_neg (by omega)]
    simp only [scoreDocs_documents]
    refine List.filter_congr ?_
    intro d hd
    obtain ⟨g, hg⟩ := hok d hd
    simp [keepDoc, gradedYes, hg]

/-- C3 witness: the leniency path at retry_count 2 and the filtering path at
retry_count 0 with an all-"yes" grader. -/
theorem C3_grade_documents_leniency_witness :
    SelfFlow.grade_documents failingOracles ⟨2, "q", "", [⟨"d"⟩]⟩ =
      (⟨2, "q", "", [⟨"d"⟩]⟩, []) ∧
    (SelfFlow.grade_documents
        (constOracles (Except.ok "yes") (Except.ok "yes") (Except.ok "yes")
          (Except.ok "q") (Except.ok "a"))
        ⟨0, "q", "", [⟨"d1"⟩, ⟨"d2"⟩]⟩).1.documents =
      List.filter
        (gradedYes
          (constOracles (Except.ok "yes") (Except.ok "yes") (Except.ok "yes")
            (Except.ok "q") (Except.ok "a")) "q")
        [⟨"d1"⟩, ⟨"d2"⟩] :=
  ⟨(C3_grade_documents_leniency failingOracles ⟨2, "q", "", [⟨"d"⟩]⟩).1 (by decide),
   (C3_grade_documents_leniency _ ⟨0, "q", "", [⟨"d1"⟩, ⟨"d2"⟩]⟩).2 (by decide)
     (fun d _ => ⟨"yes", rfl⟩)⟩

/-- C4: transform_query returns retry_count + 1, replaces the question with
the rewriter's output when the rewriter succeeds, records an aggressive
rewrite exactly when the incremented retry count is ≥ 2 (so in particular
whenever the input retry count is ≥ 2), and the only graph edge out of the
transform_query node goes to retrieve. -/
theorem C4_transform_query (o : Oracles) (s : SelfState) :
    (SelfFlow.transform_query o s).1.retry_count = s.retry_count + 1 ∧
    (∀ q, o.question_rewriter (SelfFlow.rewriteMode (s.retry_count + 1))
        s.question = Except.ok q →
      (SelfFlow.transform_query o s).1.question = q) ∧
    (2 ≤ s.retry_count + 1 →
      (SelfFlow.transform_query o s).2 =
        [Call.rewrite RewriteMode.aggressive s.question]) ∧
    (∀ e ∈ SelfFlow.selfFlowEdges, e.1 = "transform_query" → e.2 = "retrieve") ∧
    ("transform_query", "retrieve") ∈ SelfFlow.selfFlowEdges := by
  refine ⟨rfl, ?_, ?_, by decide, by decide⟩
  · intro q hq
    simp [SelfFlow.transform_query, hq]
  · intro h
    simp only [SelfFlow.transform_query, SelfFlow.rewriteMode, if_pos h]

/-- C4 witness: a concrete state at retry_count 1 with a succeeding
rewriter. -/
theorem C4_transform_query_witness :
    (SelfFlow.transform_query
        (constOracles (Except.ok "yes") (Except.ok "yes") (Except.ok "yes")
          (Except.ok "q2") (Except.ok "a"))
        ⟨1, "q", "", []⟩).1.question = "q2" ∧
    (SelfFlow.transform_query
        (constOracles (Except.ok "yes") (Except.ok "yes") (Except.ok "yes")
          (Except.ok "q2") (Except.ok "a"))
        ⟨1, "q", "", []⟩).2 = [Call.rewrite RewriteMode.aggressive "q"] :=
  ⟨(C4_transform_query _ ⟨1, "q", "", []⟩).2.1 "q2" rfl,
   (C4_transform_query _ ⟨1, "q", "", []⟩).2.2.1 (by decide)⟩

/-- C2: at the CheckGeneration edge, retry_count ≥ 2 or empty documents
short-circuits to "useful" with no grader call; otherwise a hallucination
grade of "no" yields "not supported", a hallucination grade of "yes"
followed by an answer grade of "yes" yields "useful", and an answer grade
of "no" yields "not useful"; the three transitions are wired in the graph's
conditional-edge map. -/
theorem C2_check_generation (o : Oracles) (s : SelfState) :
    ((2 ≤ s.retry_count ∨ s.documents = []) →
      SelfFlow.grade_generation_v_documents_and_question o s = ("useful", [])) ∧
    (s.retry_count < 2 → s.documents ≠ [] →
      ((o.hallucination_grader s.documents s.generation = Except.ok "no" →
        (SelfFlow.grade_generation_v_documents_and_question o s).1 =
          "not supported") ∧
       (o.hallucination_grader s.documents s.generation = Except.ok "yes" →
        o.answer_grader s.question s.generation = Except.ok "yes" →
        (SelfFlow.grade_generation_v_documents_and_question o s).1 = "useful") ∧
       (o.hallucination_grader s.documents s.generation = Except.ok "yes" →
        o.answer_grader s.question s.generation = Except.ok "no" →
        (SelfFlow.grade_generation_v_documents_and_question o s).1 =
          "not useful"))) ∧
    ("not supported", "generate") ∈ SelfFlow.checkGenerationMap ∧
    ("useful", "END") ∈ SelfFlow.checkGenerationMap ∧
    ("not useful", "transform_query") ∈ SelfFlow.checkGenerationMap := by
  refine ⟨?_, ?_, by decide, by decide, by decide⟩
  · intro h
    unfold SelfFlow.grade_generation_v_documents_and_question
    rw [if_pos h]
  · intro h1 h2
    have hneg : ¬(2 ≤ s.retry_count ∨ s.documents = []) := by
      push_neg
      exact ⟨by omega, h2⟩
    refine ⟨?_, ?_, ?_⟩ <;> intro hh
    · simp [SelfFlow.grade_generation_v_documents_and_question, hneg, hh]
    · intro ha
      simp [SelfFlow.grade_generation_v_documents_and_question, hneg, hh, ha]
    · intro ha
      simp [SelfFlow.grade_generation_v_documents_and_question, hneg, hh, ha]

/-- C2 witness: the short-circuit at retry_count 2 and the three graded
outcomes at retry_count 0 with one document. -/
theorem C2_check_generation_witness :
    SelfFlow.grade_generation_v_documents_and_question failingOracles
      ⟨2, "q", "g", [⟨"d"⟩]⟩ = ("useful", []) ∧
    (SelfFlow.grade_generation_v_documents_and_question
        (constOracles (Except.ok "yes") (Except.ok "no") (Except.ok "yes")
          (Except.ok "q") (Except.ok "a"))
        ⟨0, "q", "g", [⟨"d"⟩]⟩).1 = "not supported" ∧
    (SelfFlow.grade_generation_v_documents_and_question
        (constOracles (Except.ok "yes") (Except.ok "yes") (Except.ok "yes")
          (Except.ok "q") (Except.ok "a"))
        ⟨0, "q", "g", [⟨"d"⟩]⟩).1 = "useful" ∧
    (SelfFlow.grade_generation_v_documents_and_question
        (constOracles (Except.ok "yes") (Except.ok "yes") (Except.ok "no")
          (Except.ok "q") (Except.ok "a"))
        ⟨0, "q", "g", [⟨"d"⟩]⟩).1 = "not useful" :=
  ⟨(C2_check_generation failingOracles ⟨2, "q", "g", [⟨"d"⟩]⟩).1 (Or.inl (by decide)),
   ((C2_check_generation _ ⟨0, "q", "g", [⟨"d"⟩]⟩).2.1 (by decide) (by decide)).1 rfl,
   ((C2_check_generation _ ⟨0, "q", "g", [⟨"d"⟩]⟩).2.1 (by decide) (by decide)).2.1 rfl rfl,
   ((C2_check_generation _ ⟨0, "q", "g", [⟨"d"⟩]⟩).2.1 (by decide) (by decide)).2.2 rfl rfl⟩

/-- C7: a raised relevance-grading call keeps the document and the scoring
loop still grades the remaining documents; a raised hallucination-grading
call, or a raised answer-grading call after a grounded verdict, makes the
CheckGeneration edge return "useful"; a raised rewriting call leaves the
question unchanged. -/
theorem C7_soft_failures (o : Oracles) (s : SelfState) (q : String) (d : Doc)
    (rest : List Doc) :
    (o.retrieval_grader q d.page_content = Except.error () →
      SelfFlow.scoreDocs o q (d :: rest) =
        (d :: (SelfFlow.scoreDocs o q rest).1,
         Call.retrievalGrade q d :: (SelfFlow.scoreDocs o q rest).2)) ∧
    (o.hallucination_grader s.documents s.generation = Except.error () →
      (SelfFlow.grade_generation_v_documents_and_question o s).1 = "useful") ∧
    (o.hallucination_grader s.documents s.generation = Except.ok "yes" →
      o.answer_grader s.question s.generation = Except.error () →
      (SelfFlow.grade_generation_v_documents_and_question o s).1 = "useful") ∧
    (o.question_rewriter (SelfFlow.rewriteMode (s.retry_count + 1)) s.question =
        Except.error () →
      (SelfFlow.transform_query o s).1.question = s.question) := by
  refine ⟨?_, ?_, ?_, ?_⟩
  · intro h
    simp only [SelfFlow.scoreDocs, h]
  · intro h
    unfold SelfFlow.grade_generation_v_documents_and_question
    split
    · rfl
    · rw [h]
  · intro hh ha
    unfold SelfFlow.grade_generation_v_documents_and_question
    split
    · rfl
    · rw [hh]
      simp [ha]
  · intro h
    simp [SelfFlow.transform_query, h]

/-- C7 witness: the four soft-failure defaults at concrete inputs with
raising oracles. -/
theorem C7_soft_failures_witness :
    SelfFlow.scoreDocs failingOracles "q" [⟨"d"⟩, ⟨"e"⟩] =
      (⟨"d"⟩ :: (SelfFlow.scoreDocs failingOracles "q" [⟨"e"⟩]).1,
       Call.retrievalGrade "q" ⟨"d"⟩ ::
         (SelfFlow.scoreDocs failingOracles "q" [⟨"e"⟩]).2) ∧
    (SelfFlow.grade_generation_v_documents_and_question failingOracles
        ⟨0, "q", "g", [⟨"d"⟩]⟩).1 = "useful" ∧
    (SelfFlow.grade_generation_v_documents_and_question
        (constOracles (Except.ok "yes") (Except.ok "yes") (Except.error ())
          (Except.ok "q") (Except.ok "a"))
        ⟨0, "q", "g", [⟨"d"⟩]⟩).1 = "useful" ∧
    (SelfFlow.transform_query failingOracles ⟨0, "q", "g", []⟩).1.question = "q" :=
  ⟨(C7_soft_failures failingOracles ⟨0, "q", "g", []⟩ "q" ⟨"d"⟩ [⟨"e"⟩]).1 rfl,
   (C7_soft_failures failingOracles ⟨0, "q", "g", [⟨"d"⟩]⟩ "q" ⟨"d"⟩ []).2.1 rfl,
   (C7_soft_failures _ ⟨0, "q", "g", [⟨"d"⟩]⟩ "q" ⟨"d"⟩ []).2.2.1 rfl rfl,
   (C7_soft_failures failingOracles ⟨0, "q", "g", []⟩ "q" ⟨"d"⟩ []).2.2.2 rfl⟩

/-- C9 counterexample: with an empty document list, generate's fallback
answer embeds the question, so two empty-document states with different
questions get different answers — the fallback is not the same answer
regardless of input. -/
theorem C9_generate_counterexample :
    (SelfFlow.generate failingOracles ⟨0, "a", "", []⟩).1.generation ≠
      (SelfFlow.generate failingOracles ⟨0, "b", "", []⟩).1.generation := by
  decide

/-- C9 (amended): with an empty document list, generate makes no generation
call and returns the fixed fallback template applied to the question (so
the answer varies with the question); with a non-empty list and a
succeeding RAG chain it returns the chain's answer for the documents and
question. -/
theorem C9_generate_fallback (o : Oracles) (s : SelfState) :
    (s.documents = [] →
      SelfFlow.generate o s =
        ({ s with generation := SelfFlow.fallback_no_docs_generation s.question },
         [])) ∧
    (s.documents ≠ [] →
      ∀ g, o.rag_chain s.documents s.question = Except.ok g →
        SelfFlow.generate o s =
          ({ s with generation := g },
           [Call.ragGenerate s.documents s.question])) := by
  constructor
  · intro h
    unfold SelfFlow.generate
    rw [if_pos h]
  · intro h g hg
    unfold SelfFlow.generate
    rw [if_neg h, hg]

/-- C9 witness: the empty-document fallback and the non-empty generation at
concrete states. -/
theorem C9_generate_fallback_witness :
    SelfFlow.generate failingOracles ⟨0, "q", "", []⟩ =
      (⟨0, "q", SelfFlow.fallback_no_docs_generation "q", []⟩, []) ∧
    SelfFlow.generate
        (constOracles (Except.ok "yes") (Except.ok "yes") (Except.ok "yes")
          (Except.ok "q") (Except.ok "a"))
        ⟨0, "q", "", [⟨"d"⟩]⟩ =
      (⟨0, "q", "a", [⟨"d"⟩]⟩, [Call.ragGenerate [⟨"d"⟩] "q"]) :=
  ⟨(C9_generate_fallback failingOracles ⟨0, "q", "", []⟩).1 rfl,
   (C9_generate_fallback _ ⟨0, "q", "", [⟨"d"⟩]⟩).2 (by decide) "a" rfl⟩

/-- C8 counterexample: the web-path rewrite stage has no fault handler, so
with a rewriter that raises, AdaptiveFlow.transform_query propagates the
fault rather than substituting a placeholder. -/
theorem C8_transform_query_counterexample :
    AdaptiveFlow.transform_query (fun _ => Except.error ()) [] "q" =
      Except.error () := rfl

/-- C8 (amended): the web-search stage substitutes an empty pseudo-passage
and the generate stage substitutes a fallback answer when their calls
raise, but the rewrite stage propagates a raised rewriting fault out of the
stage. -/
theorem C8_web_path_fault_handling (question : String) (documents : List Doc)
    (d : Doc) :
    AdaptiveFlow.search_web (fun _ => Except.error ()) question =
      (⟨""⟩, question) ∧
    AdaptiveFlow.generate_answer (fun _ _ => Except.error ()) d question =
      (d, question, AdaptiveFlow.web_generation_fallback question) ∧
    AdaptiveFlow.transform_query (fun _ => Except.error ()) documents question =
      Except.error () :=
  ⟨rfl, rfl, rfl⟩

/-- C6: the routing check of AdaptiveFlow.route_query compares the
datasource against "web-search", a string no value of RouteQuery's Literal
type ("self-flow" or "web_search") can equal, so every admissible
classifier output routes to call_self_rag and the graph's web_search branch
is never selected. -/
theorem C6_route_query_unreachable :
    (∀ d, AdaptiveFlow.route_query d = "call_self_rag") ∧
    AdaptiveFlow.route_query AdaptiveFlow.Datasource.webSearchSource =
      "call_self_rag" ∧
    ("web_search", "transform_query") ∈ AdaptiveFlow.routeMap := by
  refine ⟨fun d => ?_, rfl, by decide⟩
  cases d <;> rfl
